import Mathlib

/-!
Verification of the packaging script `setup.py` of the radpalapp repository.

The script defines two helper functions, `read_readme` and
`read_requirements`, and calls `setuptools.setup` with static metadata.
We embed the two helpers and the metadata shallowly:

* a file read is modelled by a `ReadResult`: either the file's contents,
  a `FileNotFoundError`, or any other exception `open`/`read` may raise
  (`PermissionError`, `UnicodeDecodeError`, ...);
* Python's text-mode line iteration, `str.strip()` and
  `str.startswith('#')` are modelled character-exactly on `List Char`;
* a Python function that may raise is modelled in `Except String`.
-/

namespace RadPalSetup

/-- The whitespace characters removed by Python's `str.strip()`:
space, tab, newline, carriage return, vertical tab, form feed. -/
def pyIsSpace (c : Char) : Bool :=
  c = ' ' || c = '\t' || c = '\n' || c = '\r' || c = '\x0b' || c = '\x0c'

/-- Python `str.strip()` on the character list: drop whitespace from the
front, then from the back. -/
def stripChars (l : List Char) : List Char :=
  List.rdropWhile pyIsSpace (List.dropWhile pyIsSpace l)

/-- Python `line.strip()`. -/
def pyStrip (s : String) : String :=
  String.mk (stripChars s.data)

/-- Python `line.startswith('#')`: tests the first character of the raw
string. -/
def startsWithHash (s : String) : Bool :=
  match s.data with
  | [] => false
  | c :: _ => c = '#'

/-- Python text-mode file iteration: split the contents at `'\n'`,
keeping the `'\n'` at the end of each line; a final fragment without a
terminating newline is still a line, and empty contents yield no lines. -/
def splitLinesAux : List Char → List Char → List (List Char)
  | [], [] => []
  | [], acc => [acc.reverse]
  | c :: rest, acc =>
    if c = '\n' then (acc.reverse ++ ['\n']) :: splitLinesAux rest []
    else splitLinesAux rest (c :: acc)

/-- The lines of a file's contents, as Python iterates them. -/
def pyLines (s : String) : List String :=
  (splitLinesAux s.data []).map String.mk

/-- The outcome of `open(path).read()`: the contents, a
`FileNotFoundError`, or some other exception (permission denied,
undecodable bytes, ...). -/
inductive ReadResult where
  | ok (content : String)
  | fileNotFound
  | otherError (exc : String)
deriving DecidableEq, Repr

/-- `read_readme` of `setup.py`: return the README contents; a
`FileNotFoundError` is caught and replaced by the fixed fallback string;
any other exception propagates. -/
def read_readme (r : ReadResult) : Except String String :=
  match r with
  | .ok content => .ok content
  | .fileNotFound => .ok "RadPal - Speech Processing and Text-to-Speech Tools"
  | .otherError exc => .error exc

/-- The per-line filter of `read_requirements`:
`line.strip() and not line.startswith('#')`. -/
def keepLine (line : String) : Bool :=
  (pyStrip line != "") && !(startsWithHash line)

/-- The list comprehension of `read_requirements`:
`[line.strip() for line in f if line.strip() and not line.startswith('#')]`. -/
def requirementsFromContent (content : String) : List String :=
  ((pyLines content).filter keepLine).map pyStrip

/-- `read_requirements` of `setup.py`: filter and strip the lines of
`requirements.txt`; a `FileNotFoundError` is caught and replaced by the
default dependency list; any other exception propagates. -/
def read_requirements (r : ReadResult) : Except String (List String) :=
  match r with
  | .ok content => .ok (requirementsFromContent content)
  | .fileNotFound => .ok ["elevenlabs", "requests"]
  | .otherError exc => .error exc

/-- Split a character list at every occurrence of `sep`, dropping the
separators (Python `str.split(sep)`). -/
def splitOnCharAux (sep : Char) : List Char → List Char → List (List Char)
  | [], acc => [acc.reverse]
  | c :: rest, acc =>
    if c = sep then acc.reverse :: splitOnCharAux sep rest []
    else splitOnCharAux sep rest (c :: acc)

/-- Split a string at every occurrence of `sep`. -/
def splitOnChar (sep : Char) (s : String) : List String :=
  (splitOnCharAux sep s.data []).map String.mk

/-- A parsed `console_scripts` entry: the shell command, the module, and
the attribute (function) it dispatches to. -/
structure ConsoleScriptBinding where
  command : String
  module : String
  attr : String
deriving DecidableEq, Repr

/-- How setuptools reads one `console_scripts` string
`"name=module:attr"`. -/
def parseConsoleScript (s : String) : Option ConsoleScriptBinding :=
  match splitOnChar '=' s with
  | [lhs, rhs] =>
    match splitOnChar ':' rhs with
    | [m, a] => some ⟨pyStrip lhs, pyStrip m, pyStrip a⟩
    | _ => none
  | _ => none

/-- The keyword arguments of the `setup(...)` call, as written in
`setup.py`. The two file-derived fields carry the possible exception. -/
structure SetupConfig where
  name : String
  version : String
  description : String
  long_description : Except String String
  long_description_content_type : String
  author : String
  python_requires : String
  py_modules : List String
  install_requires : Except String (List String)
  console_scripts : List String
deriving Repr

/-- The `setup(...)` call of `setup.py`, as a function of the two file
reads it performs. -/
def radpalSetup (readme reqs : ReadResult) : SetupConfig :=
  { name := "radpal"
    version := "1.0.0"
    description := "Speech Processing and Text-to-Speech Tools for Medical Transcription"
    long_description := read_readme readme
    long_description_content_type := "text/markdown"
    author := "RadPal Team"
    python_requires := ">=3.8"
    py_modules := ["generate_wavs"]
    install_requires := read_requirements reqs
    console_scripts := ["radpal-generate-wavs=generate_wavs:main"] }

/-! ### Spec-side classification of requirement-file lines -/

/-- A blank line: nothing but whitespace. -/
def isBlankLine (l : String) : Bool :=
  pyStrip l == ""

/-- A comment line in the sense of the spec: a `#`-prefixed line, one
beginning with the comment marker. -/
def isCommentLine (l : String) : Bool :=
  startsWithHash l

/-- A valid specifier line: its stripped content is non-empty and is not
`#`-prefixed (a dependency specifier never begins with `'#'`); leading
and trailing whitespace around the specifier is allowed. -/
def isSpecifierLine (l : String) : Bool :=
  (pyStrip l != "") && !(startsWithHash (pyStrip l))

/-! ### Helper lemmas about stripping and the comment marker -/

lemma pyIsSpace_hash : pyIsSpace '#' = false := rfl

/-- Dropping a leading run of whitespace-only characters reaches the
rest of the list. -/
lemma dropWhile_all_space_append (w l : List Char)
    (hw : ∀ c ∈ w, pyIsSpace c = true) :
    List.dropWhile pyIsSpace (w ++ l) = List.dropWhile pyIsSpace l := by
  induction w with
  | nil => simp
  | cons c cs ih =>
    rw [List.cons_append, List.dropWhile_cons, if_pos (hw c (by simp))]
    exact ih fun d hd => hw d (by simp [hd])

/-- The first element surviving a `dropWhile` fails the predicate. -/
lemma dropWhile_head_false {α : Type} (p : α → Bool) (l : List α) (c : α)
    (t : List α) (h : List.dropWhile p l = c :: t) : p c = false := by
  induction l with
  | nil => simp at h
  | cons a as ih =>
    rw [List.dropWhile_cons] at h
    by_cases hp : p a = true
    · rw [if_pos hp] at h
      exact ih h
    · rw [if_neg hp] at h
      injection h with h1 _
      subst h1
      simpa using hp

/-- After a left `dropWhile`, a subsequent right-then-left strip is
stable: the leading character already fails the predicate. -/
lemma dropWhile_rdropWhile_dropWhile {α : Type} (p : α → Bool) (l : List α) :
    List.dropWhile p (List.rdropWhile p (List.dropWhile p l))
      = List.rdropWhile p (List.dropWhile p l) := by
  rcases hk : List.rdropWhile p (List.dropWhile p l) with _ | ⟨c, t⟩
  · simp
  · have hpref := List.rdropWhile_prefix p (List.dropWhile p l)
    rw [hk] at hpref
    obtain ⟨u, hu⟩ := hpref
    have hd2 : List.dropWhile p l = c :: (t ++ u) := by
      rw [← hu, List.cons_append]
    have hc : p c = false := dropWhile_head_false p l c (t ++ u) hd2
    rw [List.dropWhile_cons, if_neg (by simp [hc])]

/-- Python's `strip` is idempotent. -/
lemma stripChars_idem (l : List Char) :
    stripChars (stripChars l) = stripChars l := by
  unfold stripChars
  rw [dropWhile_rdropWhile_dropWhile, List.rdropWhile_idempotent]

/-- `pyStrip` is idempotent. -/
lemma pyStrip_idem (s : String) : pyStrip (pyStrip s) = pyStrip s := by
  show String.mk (stripChars (stripChars s.data)) = String.mk (stripChars s.data)
  rw [stripChars_idem]

/-- Stripping a `#`-headed string keeps the `#` in front. -/
lemma startsWithHash_pyStrip (s : String) (h : startsWithHash s = true) :
    startsWithHash (pyStrip s) = true := by
  rcases hd : s.data with _ | ⟨c, t⟩
  · rw [startsWithHash, hd] at h
    exact absurd h (by simp)
  · rw [startsWithHash, hd] at h
    have hc : c = '#' := by simpa using h
    subst hc
    show startsWithHash (String.mk (stripChars s.data)) = true
    rw [hd]
    unfold stripChars
    rw [List.dropWhile_cons, if_neg (by decide)]
    rcases hk : List.rdropWhile pyIsSpace ('#' :: t) with _ | ⟨c', t'⟩
    · rw [List.rdropWhile_eq_nil_iff] at hk
      exact absurd (hk '#' (by simp)) (by decide)
    · have hpref := List.rdropWhile_prefix pyIsSpace ('#' :: t)
      rw [hk] at hpref
      obtain ⟨u, hu⟩ := hpref
      rw [List.cons_append] at hu
      have hc' : c' = '#' := by injection hu
      subst hc'
      simp [startsWithHash]

/-! ### Theorems for the easy claims -/

/-- C4: when the README file is missing (`open` raises
`FileNotFoundError`), `read_readme` returns the fixed fallback string
and raises no error. -/
theorem read_readme_missing_file :
    read_readme .fileNotFound
      = .ok "RadPal - Speech Processing and Text-to-Speech Tools" := rfl

/-- C5: for every present, readable README file, `read_readme` returns
exactly the file's contents. -/
theorem read_readme_present_file (content : String) :
    read_readme (.ok content) = .ok content := rfl

/-- C3: when the requirements file is missing (`open` raises
`FileNotFoundError`), `read_requirements` returns exactly
`["elevenlabs", "requests"]`. -/
theorem read_requirements_missing_file :
    read_requirements .fileNotFound = .ok ["elevenlabs", "requests"] := rfl

/-- C2 counterexample: a file-read failure other than a missing file —
here a `PermissionError` from `open('README.md')` — is not recovered:
`read_readme` surfaces the exception instead of returning its default,
refuting the claim that every file-read failure of any cause is
recovered. -/
theorem read_readme_error_propagates :
    read_readme (.otherError "PermissionError") = .error "PermissionError" := rfl

/-- C2 amended: a `FileNotFoundError` in reading the README or the
requirements file is recovered by the hardcoded default and surfaces no
failure; any other file-read failure propagates to the caller. -/
theorem fallback_only_on_missing_file (exc : String) :
    read_readme .fileNotFound
        = .ok "RadPal - Speech Processing and Text-to-Speech Tools"
      ∧ read_requirements .fileNotFound = .ok ["elevenlabs", "requests"]
      ∧ read_readme (.otherError exc) = .error exc
      ∧ read_requirements (.otherError exc) = .error exc :=
  ⟨rfl, rfl, rfl, rfl⟩

/-- C7: the requirements file with lines `elevenlabs==1.2`, an empty
line, `# comment`, and `requests`, each newline-terminated, yields
exactly `["elevenlabs==1.2", "requests"]`. -/
theorem read_requirements_example :
    read_requirements (.ok "elevenlabs==1.2\n\n# comment\nrequests\n")
      = .ok ["elevenlabs==1.2", "requests"] := rfl

/-- C8: the package descriptor registers exactly one console command,
named `radpal-generate-wavs`, bound to the function `main` of the
external module `generate_wavs`. -/
theorem console_scripts_single_binding (readme reqs : ReadResult) :
    ((radpalSetup readme reqs).console_scripts).map parseConsoleScript
      = [some ⟨"radpal-generate-wavs", "generate_wavs", "main"⟩] := rfl

/-- C1: for every requirements file in which each line is a blank line,
a comment line (`#`-prefixed), or a valid specifier line,
`read_requirements` returns exactly the valid specifier lines, each
trimmed of surrounding whitespace, in file order, with all blank and all
comment lines excluded. -/
theorem read_requirements_specifier_lines (content : String)
    (h : ∀ l ∈ pyLines content,
      isBlankLine l = true ∨ isCommentLine l = true ∨ isSpecifierLine l = true) :
    requirementsFromContent content
      = ((pyLines content).filter isSpecifierLine).map pyStrip := by
  unfold requirementsFromContent
  rw [List.filter_congr (q := isSpecifierLine) ?_]
  intro l hl
  rcases h l hl with hb | hc | hs
  · have hb' : pyStrip l = "" := by
      rw [isBlankLine] at hb
      simpa using hb
    rw [keepLine, isSpecifierLine, hb']
    simp
  · rw [isCommentLine] at hc
    rw [keepLine, isSpecifierLine, hc, startsWithHash_pyStrip l hc]
  · rw [isSpecifierLine, Bool.and_eq_true] at hs
    obtain ⟨h1, h2⟩ := hs
    have h3 : startsWithHash l = false := by
      cases hsh : startsWithHash l
      · rfl
      · rw [startsWithHash_pyStrip l hsh] at h2
        simp at h2
    rw [keepLine, isSpecifierLine, h1, h2, h3]
    simp

/-- C1 witness instance: a concrete mix of a padded specifier line, a
comment line, a blank line and a plain specifier line. -/
theorem read_requirements_specifier_lines_witness :
    requirementsFromContent " elevenlabs \n# c\n\nrequests==2.0\n"
      = ((pyLines " elevenlabs \n# c\n\nrequests==2.0\n").filter
          isSpecifierLine).map pyStrip :=
  read_requirements_specifier_lines " elevenlabs \n# c\n\nrequests==2.0\n"
    (by decide)

/-- C6 counterexample: the requirements file `"   # hidden\nrequests\n"`
yields a list whose first element, `"# hidden"`, is itself a comment
line (`#`-prefixed), refuting "no element is a comment line". -/
theorem requirements_comment_element_counterexample :
    read_requirements (.ok "   # hidden\nrequests\n")
        = .ok ["# hidden", "requests"]
      ∧ isCommentLine "# hidden" = true :=
  ⟨rfl, rfl⟩

/-- C6 amended: for every input (any requirements-file contents, or the
file missing), no element of the returned dependency list is the empty
string; an element may however begin with the comment marker, when its
source line carried whitespace before the `'#'`. -/
theorem requirements_elements_nonempty (r : ReadResult) (deps : List String)
    (h : read_requirements r = .ok deps) : ∀ e ∈ deps, e ≠ "" := by
  cases r with
  | ok content =>
    injection h with h'
    subst h'
    intro e he
    obtain ⟨l, hl, rfl⟩ := List.mem_map.mp he
    have hk := (List.mem_filter.mp hl).2
    rw [keepLine, Bool.and_eq_true] at hk
    simpa using hk.1
  | fileNotFound =>
    injection h with h'
    subst h'
    decide
  | otherError exc => simp [read_requirements] at h

/-- C6 amended, witness instance: the first default dependency is not
empty. -/
theorem requirements_elements_nonempty_witness : "elevenlabs" ≠ "" :=
  requirements_elements_nonempty .fileNotFound ["elevenlabs", "requests"]
    rfl "elevenlabs" (by decide)

/-- C9: a line made of whitespace, then `'#'`, then further text passes
the filter — `startswith('#')` examines the raw line, not the stripped
one — so its stripped form appears in the returned list. -/
theorem indented_comment_included (content l : String) (w t : List Char)
    (hmem : l ∈ pyLines content) (hw : w ≠ [])
    (hws : ∀ c ∈ w, pyIsSpace c = true) (hl : l.data = w ++ '#' :: t) :
    pyStrip l ∈ requirementsFromContent content := by
  have hstrip : stripChars l.data = List.rdropWhile pyIsSpace ('#' :: t) := by
    rw [hl, stripChars, dropWhile_all_space_append _ _ hws,
      List.dropWhile_cons, if_neg (by decide)]
  have hkeep : keepLine l = true := by
    rw [keepLine, Bool.and_eq_true]
    refine ⟨?_, ?_⟩
    · rw [bne_iff_ne]
      intro hemp
      have hnil : stripChars l.data = [] := congrArg String.data hemp
      rw [hstrip, List.rdropWhile_eq_nil_iff] at hnil
      exact absurd (hnil '#' (by simp)) (by decide)
    · rcases w with _ | ⟨c, cs⟩
      · exact absurd rfl hw
      · have hc : pyIsSpace c = true := hws c (by simp)
        have hcne : c ≠ '#' := by
          intro hq
          rw [hq] at hc
          exact absurd hc (by decide)
        rw [startsWithHash, hl, List.cons_append]
        simp [hcne]
  exact List.mem_map_of_mem _ (List.mem_filter.mpr ⟨hmem, hkeep⟩)

/-- C9 witness instance: the indented comment line `"  # note\n"` of a
concrete requirements file lands, stripped, in the result. -/
theorem indented_comment_included_witness :
    pyStrip "  # note\n" ∈ requirementsFromContent "  # note\nrequests\n" :=
  indented_comment_included "  # note\nrequests\n" "  # note\n" [' ', ' ']
    [' ', 'n', 'o', 't', 'e', '\n'] (by decide) (by decide) (by decide)
    (by decide)

/-- C10: every element of the list `read_requirements` builds from a
present file is a non-empty string equal to its own stripped form (no
leading or trailing whitespace). -/
theorem requirements_elements_stripped (content : String) :
    ∀ e ∈ requirementsFromContent content, e ≠ "" ∧ pyStrip e = e := by
  intro e he
  obtain ⟨l, hl, rfl⟩ := List.mem_map.mp he
  have hk := (List.mem_filter.mp hl).2
  rw [keepLine, Bool.and_eq_true] at hk
  refine ⟨by simpa using hk.1, ?_⟩
  show String.mk (stripChars (stripChars l.data)) = String.mk (stripChars l.data)
  rw [stripChars_idem]

/-- C10 witness instance: the single element produced from
`"requests \n"` is non-empty and fully stripped. -/
theorem requirements_elements_stripped_witness :
    "requests" ≠ "" ∧ pyStrip "requests" = "requests" :=
  requirements_elements_stripped "requests \n" "requests" (by decide)

end RadPalSetup
